import Mathlib

/-!
Verification development for the `mcp-bugzilla` repository: a shallow
embedding in Lean 4 of the Bugzilla REST client (`src/mcp_bugzilla/mcp_utils.py`),
the request middleware and tool handlers (`src/mcp_bugzilla/server.py`), and the
CLI entry point (`src/mcp_bugzilla/__init__.py`), together with theorems about
the behaviour those functions exhibit.

JSON bodies are modelled by an inductive `Json` type; Python `dict.get(k, d)`
becomes association-list lookup with a default, and Python exception behaviour
(`IndexError` from `[][0]`, `AttributeError` from calling `.get` on a
non-dict) is made explicit through an `Except PyExc` result.
-/

namespace McpBugzilla

/-- A JSON value, as produced by `httpx.Response.json()`.  Numbers are
modelled as integers (all numeric fields handled by this program are ids). -/
inductive Json where
  | null : Json
  | bool : Bool → Json
  | num : Int → Json
  | str : String → Json
  | arr : List Json → Json
  | obj : List (String × Json) → Json
deriving Repr

/-- Python exceptions that the embedded code paths can raise.
`notFoundError` is the error class named by the specification's taxonomy;
it is included so that theorems can compare the code's actual behaviour
against it (the source never raises it).  Subscripting a non-list is
conflated into `typeError` (Python would raise `TypeError` or `KeyError`
depending on the value; no claim depends on the distinction). -/
inductive PyExc where
  | attributeError : PyExc
  | indexError : PyExc
  | typeError : PyExc
  | notFoundError : PyExc
deriving DecidableEq, Repr

/-- Python `d.get(k, default)` on the field list of a JSON object. -/
def pyDictGetD (fs : List (String × Json)) (k : String) (d : Json) : Json :=
  (fs.lookup k).getD d

/-- Python `j.get(k, default)` where `j` is an arbitrary JSON value:
raises `AttributeError` when `j` is not a dict. -/
def Json.pyGet (j : Json) (k : String) (d : Json) : Except PyExc Json :=
  match j with
  | .obj fs => .ok (pyDictGetD fs k d)
  | _ => .error .attributeError

/-- Python `j[0]`: first element of a list, `IndexError` on an empty list,
`TypeError`/`KeyError` (conflated) on a non-list. -/
def Json.pyIndexZero (j : Json) : Except PyExc Json :=
  match j with
  | .arr [] => .error .indexError
  | .arr (x :: _) => .ok x
  | _ => .error .typeError

/-- Python `url.rstrip("/")`: removes every trailing slash. -/
def rstripSlash (s : String) : String :=
  String.mk ((s.data.reverse.dropWhile (fun c => c = '/')).reverse)

/-- Python `s.lower()` (ASCII case folding, which covers every header and
capability name in this program). -/
def pyLower (s : String) : String :=
  String.mk (s.data.map Char.toLower)

/-- Python `s.strip()`: removes leading and trailing whitespace. -/
def pyStrip (s : String) : String :=
  String.mk (((s.data.dropWhile Char.isWhitespace).reverse.dropWhile
    Char.isWhitespace).reverse)

/-- Splitting a character list at commas, Python `s.split(",")` semantics:
`"".split(",")` is `[""]`, and consecutive commas produce empty pieces. -/
def splitCommaAux : List Char → List (List Char)
  | [] => [[]]
  | c :: rest =>
      match splitCommaAux rest, decide (c = ',') with
      | groups, true => [] :: groups
      | [], false => [[c]]
      | g :: gs, false => (c :: g) :: gs

/-- Python `s.split(",")`. -/
def pySplitComma (s : String) : List String :=
  (splitCommaAux s.data).map String.mk

/-!
The `Bugzilla` client of `src/mcp_bugzilla/mcp_utils.py`.

`Bugzilla.__init__(url, api_key)` strips trailing slashes from the URL,
derives the REST root by appending `/rest`, and constructs one
`httpx.AsyncClient` with that base URL, `params={"api_key": api_key}`,
a 30 second timeout, and JSON Content-Type/Accept headers.
-/

/-- State built by the constructor of the `Bugzilla` class: base URL, derived
API root, stored key, and the query parameters and headers baked into the
single `httpx.AsyncClient` of the instance. -/
structure Bugzilla where
  base_url : String
  api_url : String
  api_key : String
  client_params : List (String × String)
  client_headers : List (String × String)
deriving Repr

/-- Translation of `Bugzilla.__init__`. -/
def Bugzilla.init (url : String) (api_key : String) : Bugzilla :=
  { base_url := rstripSlash url
    api_url := rstripSlash url ++ "/rest"
    api_key := api_key
    client_params := [("api_key", api_key)]
    client_headers :=
      [("Content-Type", "application/json"), ("Accept", "application/json")] }

/-- Translation of the `params` property of `Bugzilla`. -/
def Bugzilla.params (bz : Bugzilla) : List (String × String) :=
  [("api_key", bz.api_key)]

/-- One outbound HTTP request, as assembled by a client operation.  The URL
is the absolute URL the relative path resolves to against the client's base
URL; the query parameters are the client-level ones plus any per-call ones. -/
structure HttpRequest where
  method : String
  url : String
  query_params : List (String × String)
  body : Option Json
deriving Repr

/-- Request assembled by `Bugzilla.bug_info`: `GET {api_url}/bug/{bug_id}`. -/
def Bugzilla.bug_info_request (bz : Bugzilla) (bug_id : Int) : HttpRequest :=
  { method := "GET"
    url := bz.api_url ++ "/bug/" ++ toString bug_id
    query_params := bz.client_params
    body := none }

/-- Response reshaping of `Bugzilla.bug_info`:
`data = r.json().get("bugs", [{}])[0]`. -/
def bug_info_extract (body : Json) : Except PyExc Json := do
  let bugs ← body.pyGet "bugs" (.arr [.obj []])
  bugs.pyIndexZero

/-- Request assembled by `Bugzilla.bug_comments`:
`GET {api_url}/bug/{bug_id}/comment`. -/
def Bugzilla.bug_comments_request (bz : Bugzilla) (bug_id : Int) : HttpRequest :=
  { method := "GET"
    url := bz.api_url ++ "/bug/" ++ toString bug_id ++ "/comment"
    query_params := bz.client_params
    body := none }

/-- Response reshaping of `Bugzilla.bug_comments`:
`data = r.json().get("bugs", {}).get(str(bug_id), {}).get("comments", [])`. -/
def bug_comments_extract (body : Json) (bug_id : Int) : Except PyExc Json := do
  let bugs ← body.pyGet "bugs" (.obj [])
  let bug ← bugs.pyGet (toString bug_id) (.obj [])
  bug.pyGet "comments" (.arr [])

/-- Payload assembled by `Bugzilla.add_comment`:
`payload = {"comment": comment, "is_private": is_private}`. -/
def add_comment_payload (comment : String) (is_private : Bool) : Json :=
  .obj [("comment", .str comment), ("is_private", .bool is_private)]

/-- Request assembled by `Bugzilla.add_comment`:
`POST {api_url}/bug/{bug_id}/comment` with the JSON payload. -/
def Bugzilla.add_comment_request (bz : Bugzilla) (bug_id : Int) (comment : String)
    (is_private : Bool) : HttpRequest :=
  { method := "POST"
    url := bz.api_url ++ "/bug/" ++ toString bug_id ++ "/comment"
    query_params := bz.client_params
    body := some (add_comment_payload comment is_private) }

/-- Response reshaping of `Bugzilla.add_comment`: `data = r.json()` is
returned unchanged (the upstream body is passed through verbatim). -/
def add_comment_result (body : Json) : Json := body

/-- Request assembled by `Bugzilla.quicksearch`: `GET {api_url}/bug` with the
per-call parameters `quicksearch`, `limit`, `offset` merged over the
client-level `api_key` parameter. -/
def Bugzilla.quicksearch_request (bz : Bugzilla) (query : String) (limit : Int)
    (offset : Int) : HttpRequest :=
  { method := "GET"
    url := bz.api_url ++ "/bug"
    query_params := bz.client_params ++
      [("quicksearch", query), ("limit", toString limit), ("offset", toString offset)]
    body := none }

/-- Response reshaping of `Bugzilla.quicksearch`:
`bugs = r.json().get("bugs", [])`. -/
def quicksearch_extract (body : Json) : Except PyExc Json :=
  body.pyGet "bugs" (.arr [])

/-!
Handlers and middleware of `src/mcp_bugzilla/server.py`.
-/

/-- Python truthiness of a JSON value (what `if x:` and `not x` test on a
value decoded from JSON). -/
def pyTruthy : Json → Bool
  | .null => false
  | .bool b => b
  | .num n => decide (n ≠ 0)
  | .str s => decide (s ≠ "")
  | .arr xs => !xs.isEmpty
  | .obj fs => !fs.isEmpty

/-- Comprehension filter in the `bug_comments` handler:
`public_comments = [c for c in all_comments if not c.get("is_private", False)]`. -/
def public_comments (all_comments : List (List (String × Json))) :
    List (List (String × Json)) :=
  all_comments.filter (fun c => !pyTruthy (pyDictGetD c "is_private" (.bool false)))

/-- Visibility branch of the `bug_comments` handler: with
`include_private_comments` set the full list is returned, otherwise just the
public comments. -/
def bug_comments_handler (all_comments : List (List (String × Json)))
    (include_private_comments : Bool) : List (List (String × Json)) :=
  if include_private_comments then all_comments else public_comments all_comments

/-- Per-record reshaping loop of the `bugs_quicksearch` handler: each bug
record is projected to the dict literal built at `server.py` lines 145-154,
using `bug.get(...)` (default `None`) for every field. -/
def essential_fields (bug : List (String × Json)) : List (String × Json) :=
  [("bug_id", pyDictGetD bug "id" .null),
   ("product", pyDictGetD bug "product" .null),
   ("component", pyDictGetD bug "component" .null),
   ("assigned_to", pyDictGetD bug "assigned_to" .null),
   ("status", pyDictGetD bug "status" .null),
   ("resolution", pyDictGetD bug "resolution" .null),
   ("summary", pyDictGetD bug "summary" .null),
   ("last_updated", pyDictGetD bug "last_change_time" .null)]

/-- Whole-list reshaping of the `bugs_quicksearch` handler: the loop appends
`essential_fields bug` for each bug of the upstream list, in order. -/
def bugs_quicksearch_reshape (all_bugs : List (List (String × Json))) :
    List (List (String × Json)) :=
  all_bugs.map essential_fields

/-- Correspondence upstream-field-name to output-key of the
`bugs_quicksearch` projection: "id" feeds "bug_id", "last_change_time" feeds
"last_updated", every other field keeps its name. -/
def field_source_map : List (String × String) :=
  [("id", "bug_id"), ("product", "product"), ("component", "component"),
   ("assigned_to", "assigned_to"), ("status", "status"),
   ("resolution", "resolution"), ("summary", "summary"),
   ("last_change_time", "last_updated")]

/-- Outcome of the wrapped handler body awaited by the middleware
(`await call_next(context)`): it can return a value, raise an exception, or
be cancelled by the transport. -/
inductive HandlerOutcome where
  | success : Json → HandlerOutcome
  | raised : String → HandlerOutcome
  | cancelled : HandlerOutcome
deriving Repr

/-- Observable steps taken by `ValidateHeaders.on_message`, in order:
constructing the per-request `Bugzilla` client (with the key it was given),
setting the context variable, awaiting the wrapped handler, closing the
client (`await bz.close()`), resetting the context variable, and raising
`ValidationError`. -/
inductive MiddlewareEvent where
  | constructClient : String → MiddlewareEvent
  | setContext : MiddlewareEvent
  | callNext : MiddlewareEvent
  | closeClient : MiddlewareEvent
  | resetContext : MiddlewareEvent
  | raiseValidation : String → MiddlewareEvent
deriving DecidableEq, Repr

/-- Message of the `ValidationError` raised by the middleware:
`f"\x60{api_key_header}\x60 header is required"`. -/
def validation_message (api_key_header : String) : String :=
  "\x60" ++ api_key_header ++ "\x60 header is required"

/-- Header-name configuration read inside `on_message`:
`cli_args.get("api_key_header", "ApiKey")`. -/
def configured_api_key_header (cli_args : List (String × String)) : String :=
  (cli_args.lookup "api_key_header").getD "ApiKey"

/-- Translation of `ValidateHeaders.on_message`.  The header value is looked
up under the lower-cased configured name (`headers.get(api_key_header.lower())`,
`get_http_headers()` exposing lower-cased header names); a missing key gives
`None` and both `None` and the empty string are falsy, so both take the
`raise ValidationError` branch.  On the truthy branch the body runs inside
`try ... finally`, whose cleanup (`await bz.close()`; `bugzilla_client.reset(token)`)
Python runs after the body on every outcome — return, raised exception, and
cancellation alike — which is why the two cleanup events follow `callNext`
independently of the `body` argument.  The returned value is the event trace
paired with the propagated result (`.error` for the `ValidationError` path). -/
def on_message (cli_args : List (String × String))
    (headers : List (String × String)) (body : HandlerOutcome) :
    List MiddlewareEvent × Except String HandlerOutcome :=
  match headers.lookup (pyLower (configured_api_key_header cli_args)) with
  | some v =>
      if v = "" then
        ([.raiseValidation (validation_message (configured_api_key_header cli_args))],
         .error (validation_message (configured_api_key_header cli_args)))
      else
        ([.constructClient v, .setContext, .callNext, .closeClient, .resetContext],
         .ok body)
  | none =>
      ([.raiseValidation (validation_message (configured_api_key_header cli_args))],
       .error (validation_message (configured_api_key_header cli_args)))

/-!
Entry point of `src/mcp_bugzilla/__init__.py`.
-/

/-- Arguments produced by `argparse` in `main`: the five declared options,
with `bugzilla_server` optional (its default, `os.getenv("BUGZILLA_SERVER")`,
can be `None`). -/
structure ParsedArgs where
  bugzilla_server : Option String
  host : String
  port : Int
  api_key_header : String
  use_auth_header : Bool
deriving DecidableEq, Repr

/-- Value stored in the `server.cli_args` dict. -/
inductive CliValue where
  | str : String → CliValue
  | num : Int → CliValue
deriving DecidableEq, Repr

/-- Translation of `main` after argument parsing: it exits with code 1 when
no server URL is configured, and otherwise stores exactly four entries into
`server.cli_args` — `bugzilla_server`, `host`, `port`, `api_key_header`.
The parsed `use_auth_header` flag is read nowhere in the repository after
parsing: it is not stored in `cli_args` and `Bugzilla.__init__` takes no
corresponding parameter. -/
def main_cli_args (args : ParsedArgs) : Except Nat (List (String × CliValue)) :=
  match args.bugzilla_server with
  | none => .error 1
  | some url =>
      .ok [("bugzilla_server", .str url), ("host", .str args.host),
           ("port", .num args.port), ("api_key_header", .str args.api_key_header)]

/-!
Capability gating.  The specification (section 4.4 and the configuration
table: environment variable `MCP_BUGZILLA_DISABLED_METHODS`) describes a
startup step that removes disabled capabilities from the active registry.
No such code exists under `src/`; the definitions below are modelled from
the specification's words so the gating claims can be stated.
-/

/-- External names of the capabilities registered in `server.py` (the
`@mcp.tool()` and `@mcp.prompt()` declarations, in source order). -/
def capability_registry : List String :=
  ["bug_info", "bug_comments", "add_comment", "bugs_quicksearch",
   "learn_quicksearch_syntax", "server_url", "bug_url", "mcp_server_info",
   "get_current_headers", "summarize_bug_comments"]

/-- Modelled from the spec: parsing of the configured disablement list
(missing from `src/`): "a configured list of capability names
(case-insensitive, comma-delimited)" — split on commas, trim surrounding
whitespace, compare case-insensitively (normalised to lower case). -/
def parse_disabled_methods (raw : String) : List String :=
  (pySplitComma raw).map (fun part => pyLower (pyStrip part))

/-- Modelled from the spec: the gating step (missing from `src/`): "for each
name found in the active capability registry (matched by the capability's
declared external name), removes it from the active set"; unknown names in
the disable list are ignored. -/
def gate_capabilities (registry : List String) (raw : String) : List String :=
  registry.filter (fun name => !((parse_disabled_methods raw).contains (pyLower name)))

/-- Modelled from the spec: invoking a capability against the gated active
set (missing from `src/`): a name absent from the active set fails as
"capability not found". -/
def invoke_capability (active : List String) (name : String) :
    Except String String :=
  if active.contains name then .ok name else .error "capability not found"

/-!
Helper lemmas.
-/

theorem pyDictGetD_none {fs : List (String × Json)} {k : String} {d : Json}
    (h : fs.lookup k = none) : pyDictGetD fs k d = d := by
  simp [pyDictGetD, h]

theorem pyDictGetD_some {fs : List (String × Json)} {k : String} {v d : Json}
    (h : fs.lookup k = some v) : pyDictGetD fs k d = v := by
  simp [pyDictGetD, h]

theorem pyIndexZero_ne_notFound (j : Json) :
    j.pyIndexZero ≠ Except.error PyExc.notFoundError := by
  unfold Json.pyIndexZero
  split <;> simp

theorem bug_info_extract_obj (fs : List (String × Json)) :
    bug_info_extract (.obj fs)
      = (pyDictGetD fs "bugs" (Json.arr [Json.obj []])).pyIndexZero := rfl

/-!
Claim theorems.
-/

/-- C1 (counterexample): the claim says a successful `addComment` yields a
mapping keyed by "commentId"; on the upstream 201 body the code's
`add_comment` actually returns the upstream body unchanged, so at the
concrete upstream body of the claim's own example the returned mapping is
keyed by "id" and is not the claimed one. -/
theorem add_comment_commentId_refuted :
    add_comment_result (.obj [("id", .num 101)]) ≠ .obj [("commentId", .num 101)] := by
  simp [add_comment_result]

/-- C1 (amended): for every bug id, comment text, and privacy flag, a
successful `add_comment` POSTs the JSON body
with "comment" bound to the text and "is_private" bound to the flag to the
comment endpoint, and returns the upstream response body unchanged — so the
upstream 201 body with "id" bound to 101 yields that same mapping (keyed
"id", not "commentId"). -/
theorem add_comment_amended (url api_key comment : String) (bug_id : Int)
    (is_private : Bool) (resp : Json) :
    ((Bugzilla.init url api_key).add_comment_request bug_id comment is_private).method
        = "POST"
    ∧ ((Bugzilla.init url api_key).add_comment_request bug_id comment is_private).body
        = some (.obj [("comment", .str comment), ("is_private", .bool is_private)])
    ∧ add_comment_result resp = resp
    ∧ add_comment_result (.obj [("id", .num 101)]) = .obj [("id", .num 101)] :=
  ⟨rfl, rfl, rfl, rfl⟩

/-- C2 (counterexample): the claim says `getBug` fails with `NotFoundError`
when the upstream bug list is empty or absent and never silently returns an
empty mapping.  On the response with no "bugs" key the code returns the
default's first element — the empty mapping — successfully, and on the
response with an empty "bugs" list it raises `IndexError` (from `[][0]`),
which is not `NotFoundError`. -/
theorem bug_info_notfound_refuted :
    bug_info_extract (.obj []) = .ok (.obj [])
    ∧ bug_info_extract (.obj [("bugs", .arr [])]) = .error .indexError := by
  exact ⟨rfl, rfl⟩

/-- C2 (amended): on an upstream object response, when the "bugs" key maps
to an empty list `bug_info` raises `IndexError`; when the "bugs" key is
absent it silently returns the empty mapping; and it never raises
`NotFoundError` (no such error exists in the code). -/
theorem bug_info_amended (fs : List (String × Json)) :
    (fs.lookup "bugs" = some (.arr []) → bug_info_extract (.obj fs) = .error .indexError)
    ∧ (fs.lookup "bugs" = none → bug_info_extract (.obj fs) = .ok (.obj []))
    ∧ bug_info_extract (.obj fs) ≠ .error .notFoundError := by
  rw [bug_info_extract_obj]
  and_intros
  · intro h
    rw [pyDictGetD_some h]
    rfl
  · intro h
    rw [pyDictGetD_none h]
    rfl
  · exact pyIndexZero_ne_notFound _

/-- Witness for C2's amended theorem at the concrete responses of the claim. -/
theorem bug_info_amended_witness :
    bug_info_extract (.obj [("bugs", .arr [])]) = .error .indexError
    ∧ bug_info_extract (.obj []) = .ok (.obj []) :=
  ⟨(bug_info_amended [("bugs", .arr [])]).1 rfl, (bug_info_amended []).2.1 rfl⟩

/-- C3 (code bug): the claim (and the help text of the `--use-auth-header`
flag itself) says that in bearer-auth mode the API key is carried as an
`Authorization: Bearer` header.  The code parses the flag but drops it:
`main` never stores `use_auth_header` into `server.cli_args` (the stored
dict is identical whether the flag was given or not) and `Bugzilla.__init__`
bakes the key into the `api_key` query parameter unconditionally — the
constructed client carries no `Authorization` header on any instance. -/
theorem use_auth_header_dead (url api_key host api_key_header : String)
    (port : Int) (flag : Bool) :
    main_cli_args ⟨some url, host, port, api_key_header, flag⟩
        = main_cli_args ⟨some url, host, port, api_key_header, true⟩
    ∧ (Bugzilla.init url api_key).client_params = [("api_key", api_key)]
    ∧ (Bugzilla.init url api_key).client_headers.lookup "Authorization" = none :=
  ⟨rfl, rfl, rfl⟩

/-- C4: gating with the disablement list "Bug_Info, Add_Comment" removes
exactly the capabilities whose external name case-insensitively matches an
entry of the comma-split, trimmed list (unknown entries match nothing and
are thereby ignored); afterwards invoking `bug_info` or `add_comment` fails
as "capability not found" while `bug_comments` still succeeds. -/
theorem capability_gating_disables_matched :
    (∀ name raw, name ∈ gate_capabilities capability_registry raw ↔
        (name ∈ capability_registry ∧ pyLower name ∉ parse_disabled_methods raw))
    ∧ invoke_capability (gate_capabilities capability_registry "Bug_Info, Add_Comment")
        "bug_info" = .error "capability not found"
    ∧ invoke_capability (gate_capabilities capability_registry "Bug_Info, Add_Comment")
        "add_comment" = .error "capability not found"
    ∧ invoke_capability (gate_capabilities capability_registry "Bug_Info, Add_Comment")
        "bug_comments" = .ok "bug_comments" := by
  refine ⟨fun name raw => ?_, rfl, rfl, rfl⟩
  simp [gate_capabilities, List.mem_filter]

/-- C5: when the inbound headers carry no value — or an empty value — under
the configured credential header name, `on_message` raises the validation
error whose message names the expected header, constructs no Bugzilla
client, and never reaches the wrapped handler (no outbound call can be
attempted). -/
theorem missing_credential_short_circuit
    (cli_args headers : List (String × String)) (body : HandlerOutcome)
    (h : headers.lookup (pyLower (configured_api_key_header cli_args)) = none
       ∨ headers.lookup (pyLower (configured_api_key_header cli_args)) = some "") :
    on_message cli_args headers body
      = ([.raiseValidation (validation_message (configured_api_key_header cli_args))],
         .error (validation_message (configured_api_key_header cli_args)))
    ∧ (∀ k, MiddlewareEvent.constructClient k ∉ (on_message cli_args headers body).1)
    ∧ MiddlewareEvent.callNext ∉ (on_message cli_args headers body).1
    ∧ validation_message (configured_api_key_header cli_args)
        = "\x60" ++ configured_api_key_header cli_args ++ "\x60 header is required" := by
  rcases h with h | h <;>
    refine ⟨?_, ?_, ?_, rfl⟩ <;>
    simp [on_message, h, validation_message]

/-- Witness for C5 at a concrete request with no headers at all. -/
theorem missing_credential_short_circuit_witness :
    on_message [("api_key_header", "ApiKey")] [] (.success .null)
      = ([.raiseValidation
            (validation_message (configured_api_key_header [("api_key_header", "ApiKey")]))],
         .error (validation_message (configured_api_key_header [("api_key_header", "ApiKey")]))) :=
  (missing_credential_short_circuit [("api_key_header", "ApiKey")] [] (.success .null)
    (Or.inl rfl)).1

/-- C6: whenever `on_message` constructed a per-request client (a
`constructClient` event is in its trace), the trace is exactly
construction, context set, handler body, client close, context reset — so
the close and the reset happen after the body on every run, and since the
`body` argument ranges over success, raised error, and cancellation alike,
a constructed client is closed (and the context slot reset) on every exit
path; the body's outcome is then propagated unchanged. -/
theorem client_closed_on_every_exit_path
    (cli_args headers : List (String × String)) (body : HandlerOutcome) (k : String)
    (h : MiddlewareEvent.constructClient k ∈ (on_message cli_args headers body).1) :
    (on_message cli_args headers body).1
      = [.constructClient k, .setContext, .callNext, .closeClient, .resetContext]
    ∧ MiddlewareEvent.closeClient ∈ (on_message cli_args headers body).1
    ∧ MiddlewareEvent.resetContext ∈ (on_message cli_args headers body).1
    ∧ (on_message cli_args headers body).2 = .ok body := by
  rcases hl : headers.lookup (pyLower (configured_api_key_header cli_args)) with _ | v
  · simp [on_message, hl] at h
  · by_cases hv : v = ""
    · simp [on_message, hl, hv] at h
    · have hred : on_message cli_args headers body
          = ([.constructClient v, .setContext, .callNext, .closeClient, .resetContext],
             .ok body) := by
        simp [on_message, hl, hv]
      rw [hred] at h
      simp at h
      subst h
      rw [hred]
      exact ⟨rfl, by simp, by simp, rfl⟩

/-- Witness for C6 on a cancelled request body. -/
theorem client_closed_on_every_exit_path_witness :
    (on_message [("api_key_header", "ApiKey")] [("apikey", "secret")] .cancelled).1
      = [.constructClient "secret", .setContext, .callNext, .closeClient, .resetContext] :=
  (client_closed_on_every_exit_path [("api_key_header", "ApiKey")] [("apikey", "secret")]
    .cancelled "secret" (by decide)).1

/-- C7: the `bugs_quicksearch` handler projects every upstream bug record
to exactly the eight keys bug_id, product, component, assigned_to, status,
resolution, summary, last_updated — bug_id taken from the upstream "id"
field, last_updated from the upstream "last_change_time" field, and the
rest copied under the same name — applying this record projection to each
element of the upstream list; on the specification's sample record the
output is exactly the sample projection. -/
theorem quicksearch_projection (bug : List (String × Json))
    (all_bugs : List (List (String × Json))) :
    (essential_fields bug).map Prod.fst
        = ["bug_id", "product", "component", "assigned_to", "status", "resolution",
           "summary", "last_updated"]
    ∧ (essential_fields bug).lookup "bug_id" = some (pyDictGetD bug "id" .null)
    ∧ (essential_fields bug).lookup "product" = some (pyDictGetD bug "product" .null)
    ∧ (essential_fields bug).lookup "component" = some (pyDictGetD bug "component" .null)
    ∧ (essential_fields bug).lookup "assigned_to"
        = some (pyDictGetD bug "assigned_to" .null)
    ∧ (essential_fields bug).lookup "status" = some (pyDictGetD bug "status" .null)
    ∧ (essential_fields bug).lookup "resolution"
        = some (pyDictGetD bug "resolution" .null)
    ∧ (essential_fields bug).lookup "summary" = some (pyDictGetD bug "summary" .null)
    ∧ (essential_fields bug).lookup "last_updated"
        = some (pyDictGetD bug "last_change_time" .null)
    ∧ bugs_quicksearch_reshape all_bugs = all_bugs.map essential_fields
    ∧ essential_fields
        [("id", .num 1), ("product", .str "P"), ("component", .str "C"),
         ("assigned_to", .str "a"), ("status", .str "S"), ("resolution", .str "R"),
         ("summary", .str "s"), ("last_change_time", .str "t")]
        = [("bug_id", .num 1), ("product", .str "P"), ("component", .str "C"),
           ("assigned_to", .str "a"), ("status", .str "S"), ("resolution", .str "R"),
           ("summary", .str "s"), ("last_updated", .str "t")] := by
  and_intros <;> rfl

/-- C8: when the nested keyed-by-id structure of the comments response has
no entry for the bug — the "bugs" key absent, or present but without the
bug's id key — `bug_comments` returns the empty list successfully rather
than raising an error. -/
theorem bug_comments_zero_comments (fs gs : List (String × Json)) (bug_id : Int)
    (h1 : fs.lookup "bugs" = none ∨ fs.lookup "bugs" = some (.obj gs))
    (h2 : gs.lookup (toString bug_id) = none) :
    bug_comments_extract (.obj fs) bug_id = .ok (.arr []) := by
  have step : bug_comments_extract (.obj fs) bug_id
      = ((pyDictGetD fs "bugs" (Json.obj [])).pyGet (toString bug_id)
          (Json.obj [])).bind
          (fun bug => bug.pyGet "comments" (Json.arr [])) := rfl
  rcases h1 with h1 | h1
  · rw [step, pyDictGetD_none h1]; rfl
  · rw [step, pyDictGetD_some h1]
    have step2 : ((Json.obj gs).pyGet (toString bug_id) (Json.obj [])).bind
        (fun bug => bug.pyGet "comments" (Json.arr []))
        = (pyDictGetD gs (toString bug_id) (Json.obj [])).pyGet "comments"
            (Json.arr []) := rfl
    rw [step2, pyDictGetD_none h2]; rfl

/-- Witness for C8 on a response with no "bugs" entry at all. -/
theorem bug_comments_zero_comments_witness :
    bug_comments_extract (.obj []) 123 = .ok (.arr []) :=
  bug_comments_zero_comments [] [] 123 (Or.inl rfl) rfl

/-- C9: the private-comment-exclusion filter of the `bug_comments` handler
is idempotent — filtering an already-filtered list yields the same list. -/
theorem public_comments_idempotent (cs : List (List (String × Json))) :
    public_comments (public_comments cs) = public_comments cs := by
  simp [public_comments, List.filter_filter]

/-- C10: for every upstream bug record, including records missing expected
fields, the `bugs_quicksearch` projection yields exactly the eight output
keys, and every output key whose source field is absent upstream is bound
to null rather than omitted or raising an error. -/
theorem quicksearch_missing_fields_null (bug : List (String × Json)) :
    (essential_fields bug).map Prod.fst
        = ["bug_id", "product", "component", "assigned_to", "status", "resolution",
           "summary", "last_updated"]
    ∧ (∀ src dst, (src, dst) ∈ field_source_map → bug.lookup src = none →
        (essential_fields bug).lookup dst = some Json.null) := by
  refine ⟨rfl, fun src dst hmem h => ?_⟩
  fin_cases hmem <;> exact congrArg some (pyDictGetD_none h)

/-- Witness for C10 on a record with no fields at all. -/
theorem quicksearch_missing_fields_null_witness :
    (essential_fields []).lookup "bug_id" = some Json.null :=
  (quicksearch_missing_fields_null []).2 "id" "bug_id" (by decide) rfl

end McpBugzilla
